import Mathlib

/- Shallow embedding of the e-commerce synthetic-data pipeline
   (generate_datasets.py and load_to_database.py).

   Modelling conventions:
   - Calendar dates are day ordinals: `civil y m d` counts days since
     2020-01-01, so date comparison and "+ k days" are plain Nat operations.
   - Every pseudo-random draw of the Python scripts (`random.randint`,
     `random.choice`, `random.uniform`, `fake.date_between`, and the Faker
     string synthesizers) is modelled by an entropy parameter supplied by an
     oracle.  A draw primitive maps its entropy onto exactly the support of
     the corresponding Python distribution, so properties quantified over all
     oracles cover every possible run, and fixing the oracle fixes the run
     (the seeded-PRNG determinism of the scripts).
   - Python code paths that raise (IndexError from `random.choice` on an
     empty list, `.iloc[0]` on an empty selection) are modelled with
     `Option`: `none` is the raising run.
   - Money amounts are ℚ; `round(x, 2)` is modelled by round-half-to-even
     (Python banker rounding) on rationals. -/

namespace Ecom

/-! ### Calendar dates as day ordinals -/

/-- Gregorian leap-year test. -/
def isLeap (y : Nat) : Bool :=
  (y % 4 == 0 && y % 100 != 0) || (y % 400 == 0)

/-- Number of days in year `y`. -/
def daysInYear (y : Nat) : Nat := if isLeap y then 366 else 365

/-- Number of days in month `m` of year `y`. -/
def daysInMonth (y m : Nat) : Nat :=
  if m == 2 then (if isLeap y then 29 else 28)
  else if m == 4 || m == 6 || m == 9 || m == 11 then 30
  else 31

/-- Day ordinal of the civil date `y-m-d` (days since 2020-01-01). -/
def civil (y m d : Nat) : Nat :=
  ((List.range (y - 2020)).map (fun k => daysInYear (2020 + k))).sum +
  ((List.range (m - 1)).map (fun k => daysInMonth y (k + 1))).sum + (d - 1)

/-- START_DATE = datetime(2022, 1, 1). -/
def START_DATE : Nat := civil 2022 1 1

/-- END_DATE = datetime(2025, 10, 31). -/
def END_DATE : Nat := civil 2025 10 31

/-- SIGNUP_END = datetime(2025, 10, 31). -/
def SIGNUP_END : Nat := civil 2025 10 31

/-! ### Draw primitives (entropy-indexed embeddings of the random calls) -/

/-- random.randint(a, b): entropy `r` selects a value; the image over all
`r` is exactly the integer interval `[a, b]` (for `a ≤ b`). -/
def randint (a b r : Nat) : Nat := a + r % (b - a + 1)

/-- fake.date_between(start_date, end_date): entropy `r` selects a day in
`[lo, hi]` (for `lo ≤ hi`, which holds at every call site). -/
def dateBetween (lo hi r : Nat) : Nat := lo + r % (hi - lo + 1)

/-- random.choice(l): entropy `r` selects an element; `none` models the
IndexError Python raises on an empty sequence. -/
def choice {α : Type} (l : List α) (r : Nat) : Option α := l[r % l.length]?

/-- random.uniform(a, b): entropy `t` is squashed into `[0, 1]` and scales
the interval, so the image over all `t` is exactly `[a, b]` (for `a ≤ b`). -/
def uniform (a b t : ℚ) : ℚ := a + (b - a) * (min 1 (max 0 t))

/-- Python round-to-integer: nearest integer, ties to the even one. -/
def roundHalfEven (q : ℚ) : ℤ :=
  if Int.fract q < 1/2 then ⌊q⌋
  else if 1/2 < Int.fract q then ⌊q⌋ + 1
  else if ⌊q⌋ % 2 = 0 then ⌊q⌋ else ⌊q⌋ + 1

/-- Python round(x, 2): round to two decimal places. -/
def round2 (q : ℚ) : ℚ := (roundHalfEven (q * 100) : ℚ) / 100

/-! ### Data model -/

/-- The five order statuses of ORDER_STATUSES. -/
inductive Status where
  | Pending
  | Processing
  | Shipped
  | Delivered
  | Cancelled
  deriving DecidableEq

/-- A row of customers.csv. -/
structure Customer where
  customer_id : Nat
  first_name : String
  last_name : String
  email : String
  signup_date : Nat
  country : String
  deriving DecidableEq

/-- A row of products.csv. -/
structure Product where
  product_id : Nat
  name : String
  category : String
  price : ℚ
  launch_date : Nat
  deriving DecidableEq

/-- A row of orders.csv.  `ship_date = none` is the empty-string cell. -/
structure Order where
  order_id : Nat
  customer_id : Nat
  order_date : Nat
  ship_date : Option Nat
  status : Status
  deriving DecidableEq

/-- A row of order_items.csv. -/
structure OrderItem where
  order_item_id : Nat
  order_id : Nat
  product_id : Nat
  quantity : Nat
  item_price : ℚ
  deriving DecidableEq

/-- A row of shipments.csv. -/
structure Shipment where
  shipment_id : Nat
  order_id : Nat
  shipment_date : Nat
  carrier : String
  tracking_number : String
  shipment_cost : ℚ
  deriving DecidableEq

/-- The five collections, both as emitted by the generator and as stored in
the five tables of ecommerce.db. -/
structure Dataset where
  customers : List Customer
  products : List Product
  orders : List Order
  order_items : List OrderItem
  shipments : List Shipment
  deriving DecidableEq

/-! ### Fixed constant lists of generate_datasets.py -/

/-- CATEGORIES. -/
def CATEGORIES : List String :=
  ["Electronics", "Apparel", "Home & Garden", "Sports & Outdoors", "Books",
   "Toys & Games", "Health & Beauty", "Automotive", "Food & Beverages",
   "Office Supplies"]

/-- COUNTRIES. -/
def COUNTRIES : List String :=
  ["United States", "United Kingdom", "Canada", "Australia", "Germany",
   "France", "Italy", "Spain", "Netherlands", "Sweden", "Norway", "Japan",
   "South Korea", "Brazil", "Mexico", "India", "China", "Singapore",
   "United Arab Emirates"]

/-- ORDER_STATUSES. -/
def ORDER_STATUSES : List Status :=
  [Status.Pending, Status.Processing, Status.Shipped, Status.Delivered,
   Status.Cancelled]

/-- CARRIERS. -/
def CARRIERS : List String :=
  ["UPS", "FedEx", "USPS", "DHL", "Amazon Logistics", "OnTrac"]

/-- PRODUCT_TEMPLATES, as a lookup keyed by category. -/
def PRODUCT_TEMPLATES (category : String) : List String :=
  if category = "Electronics" then
    ["Smartphone", "Laptop", "Tablet", "Headphones", "Speaker", "Smartwatch",
     "Camera", "TV", "Monitor", "Keyboard", "Mouse"]
  else if category = "Apparel" then
    ["T-Shirt", "Jeans", "Dress", "Jacket", "Sneakers", "Boots", "Hat",
     "Sunglasses", "Belt", "Wallet"]
  else if category = "Home & Garden" then
    ["Lamp", "Chair", "Table", "Rug", "Curtains", "Vase", "Plant Pot",
     "Candle", "Picture Frame", "Wall Clock"]
  else if category = "Sports & Outdoors" then
    ["Tent", "Backpack", "Bicycle", "Dumbbells", "Yoga Mat", "Running Shoes",
     "Golf Clubs", "Tennis Racket", "Basketball", "Soccer Ball"]
  else if category = "Books" then
    ["Novel", "Biography", "Cookbook", "Textbook", "Comic Book", "Guide",
     "Atlas", "Dictionary", "Encyclopedia", "Manual"]
  else if category = "Toys & Games" then
    ["Board Game", "Action Figure", "Puzzle", "Doll", "LEGO Set", "RC Car",
     "Video Game", "Card Game", "Stuffed Animal", "Building Blocks"]
  else if category = "Health & Beauty" then
    ["Shampoo", "Lotion", "Perfume", "Makeup Set", "Vitamins",
     "Skincare Cream", "Hairbrush", "Toothbrush", "Deodorant", "Face Mask"]
  else if category = "Automotive" then
    ["Car Battery", "Tire", "Oil Filter", "Brake Pad", "Car Mat",
     "Phone Mount", "Dash Cam", "Jump Starter", "Air Freshener",
     "Cleaning Kit"]
  else if category = "Food & Beverages" then
    ["Coffee Beans", "Tea", "Chocolate", "Snack Mix", "Protein Bar",
     "Energy Drink", "Cereal", "Pasta", "Sauce", "Spice Set"]
  else if category = "Office Supplies" then
    ["Pen Set", "Notebook", "Stapler", "Paper Clips", "Folder", "Binder",
     "Calculator", "Desk Organizer", "Printer Paper", "Whiteboard"]
  else []

/-! ### Oracles: one entropy record per loop iteration -/

/-- Entropy consumed by one iteration of the customers loop.  The Faker
string synthesizers (first_name, last_name, domain_name) are external
seeded sources; the oracle supplies their outputs directly. -/
structure CustomerDraw where
  firstName : String
  lastName : String
  emailNum : Nat
  domain : String
  signup : Nat
  country : Nat

/-- Entropy consumed by one iteration of the products loop. -/
structure ProductDraw where
  category : Nat
  template : Nat
  company : String
  price : ℚ
  launch : Nat

/-- Entropy consumed by one iteration of the orders loop. -/
structure OrderDraw where
  cust : Nat
  date : Nat
  status : Nat
  shipDays : Nat

/-- Entropy consumed by one iteration of the order-items loop. -/
structure ItemDraw where
  ord : Nat
  prod : Nat
  priceFactor : ℚ
  qty : Nat

/-- Entropy consumed by one iteration of the shipments loop. -/
structure ShipmentDraw where
  ord : Nat
  date : Nat
  carrier : Nat
  track : Nat
  cost : ℚ

/-- The randomness of a whole run: the seeded `random` stream and the seeded
Faker stream, split per loop and per iteration.  Seeding both PRNGs with the
same seed value fixes this oracle. -/
structure Oracle where
  cust : Nat → CustomerDraw
  prod : Nat → ProductDraw
  ord : Nat → OrderDraw
  item : Nat → ItemDraw
  ship : Nat → ShipmentDraw

/-- The five NUM_* row-count constants, as a parameter record. -/
structure Config where
  numCustomers : Nat
  numProducts : Nat
  numOrders : Nat
  numOrderItems : Nat
  numShipments : Nat
  deriving DecidableEq

/-- The concrete constants of generate_datasets.py:
NUM_CUSTOMERS = 1000, NUM_PRODUCTS = 500, NUM_ORDERS = 2000,
NUM_ORDER_ITEMS = 4000, NUM_SHIPMENTS = 1500. -/
def defaultConfig : Config :=
  { numCustomers := 1000, numProducts := 500, numOrders := 2000,
    numOrderItems := 4000, numShipments := 1500 }

/-! ### Generator loops -/

/-- Body of the customers loop (iteration `i`). -/
def genCustomer (i : Nat) (d : CustomerDraw) : Customer :=
  { customer_id := i
    first_name := d.firstName
    last_name := d.lastName
    email := d.firstName.toLower ++ "." ++ d.lastName.toLower ++
      toString (randint 100 999 d.emailNum) ++ "@" ++ d.domain
    signup_date := dateBetween START_DATE SIGNUP_END d.signup
    country := (choice COUNTRIES d.country).getD "" }

/-- The customers loop: ids 1..n.  (`choice` on the nonempty constant
COUNTRIES never fails, so the loop is total.) -/
def genCustomers (n : Nat) (dr : Nat → CustomerDraw) : List Customer :=
  (List.range' 1 n).map (fun i => genCustomer i (dr i))

/-- Body of the products loop (iteration `i`). -/
def genProduct (i : Nat) (d : ProductDraw) : Product :=
  let category := (choice CATEGORIES d.category).getD ""
  let template := (choice (PRODUCT_TEMPLATES category) d.template).getD ""
  { product_id := i
    name := d.company ++ " " ++ template
    category := category
    price := round2 (uniform 5 5000 d.price)
    launch_date := dateBetween START_DATE (civil 2025 9 1) d.launch }

/-- The products loop: ids 1..n. -/
def genProducts (n : Nat) (dr : Nat → ProductDraw) : List Product :=
  (List.range' 1 n).map (fun i => genProduct i (dr i))

/-- Sequential loop that fails (propagates the Python exception) as soon as
one iteration fails. -/
def generateEach {α : Type} (f : Nat → Option α) : List Nat → Option (List α)
  | [] => some []
  | i :: is =>
    (f i).bind fun x => (generateEach f is).bind fun xs => some (x :: xs)

/-- Body of the orders loop (iteration `i`): pick a customer id from
`customer_ids`, look its row up (first match), draw the order date in
[max(signup, START_DATE), END_DATE], draw a status, and set ship_date to
order_date + randint(1,7) unless the status is Pending or Cancelled. -/
def genOrder (customers : List Customer) (customer_ids : List Nat) (i : Nat)
    (d : OrderDraw) : Option Order :=
  (choice customer_ids d.cust).bind fun customer_id =>
  (customers.find? (fun c => c.customer_id == customer_id)).bind fun c =>
  let order_date := dateBetween (max c.signup_date START_DATE) END_DATE d.date
  let status := (choice ORDER_STATUSES d.status).getD Status.Pending
  let ship_date :=
    if status = Status.Pending ∨ status = Status.Cancelled then none
    else some (order_date + randint 1 7 d.shipDays)
  some { order_id := i, customer_id := customer_id, order_date := order_date,
         ship_date := ship_date, status := status }

/-- The orders loop: `customer_ids` is computed once before the loop. -/
def genOrders (customers : List Customer) (n : Nat) (dr : Nat → OrderDraw) :
    Option (List Order) :=
  let customer_ids := customers.map (fun c => c.customer_id)
  generateEach (fun i => genOrder customers customer_ids i (dr i))
    (List.range' 1 n)

/-- Body of the order-items loop (iteration `i`): pick an order id and a
product id, look the product row up (first match), derive the item price as
round2(price * uniform(0.9, 1.1)) and the quantity as randint(1, 5). -/
def genOrderItem (products : List Product) (order_ids product_ids : List Nat)
    (i : Nat) (d : ItemDraw) : Option OrderItem :=
  (choice order_ids d.ord).bind fun order_id =>
  (choice product_ids d.prod).bind fun product_id =>
  (products.find? (fun p => p.product_id == product_id)).bind fun p =>
  let base_price := p.price
  some { order_item_id := i, order_id := order_id, product_id := product_id,
         quantity := randint 1 5 d.qty,
         item_price := round2 (base_price * uniform (9/10) (11/10) d.priceFactor) }

/-- The order-items loop: both id lists are computed once before the loop. -/
def genOrderItems (orders : List Order) (products : List Product) (n : Nat)
    (dr : Nat → ItemDraw) : Option (List OrderItem) :=
  let order_ids := orders.map (fun o => o.order_id)
  let product_ids := products.map (fun p => p.product_id)
  generateEach (fun i => genOrderItem products order_ids product_ids i (dr i))
    (List.range' 1 n)

/-- The isin(["Shipped", "Delivered"]) status filter. -/
def isShippedOrDelivered (o : Order) : Bool :=
  o.status == Status.Shipped || o.status == Status.Delivered

/-- The earliest-shipment-date computation of the shipments loop: the
ship_date of the order if set (non-empty) else its order_date, reset to the
order_date whenever it exceeds END_DATE. -/
def shipMinDate (o : Order) : Nat :=
  let min0 := match o.ship_date with
    | some sd => sd
    | none => o.order_date
  if END_DATE < min0 then o.order_date else min0

/-- Body of the shipments loop (iteration `i`): pick an order id among the
Shipped/Delivered ones, look the order row up (first match); the shipment
date is then drawn in [min_ship_date, max(min_ship_date, END_DATE)]. -/
def genShipment (orders : List Order) (shippedIds : List Nat) (i : Nat)
    (d : ShipmentDraw) : Option Shipment :=
  (choice shippedIds d.ord).bind fun order_id =>
  (orders.find? (fun o => o.order_id == order_id)).bind fun o =>
  let min_ship_date := shipMinDate o
  let end_ship_date := max min_ship_date END_DATE
  let carrier := (choice CARRIERS d.carrier).getD ""
  some { shipment_id := i, order_id := order_id,
         shipment_date := dateBetween min_ship_date end_ship_date d.date,
         carrier := carrier,
         tracking_number := (carrier.take 2).toUpper ++
           toString (randint 1000000000 9999999999 d.track),
         shipment_cost := round2 (uniform 5 50 d.cost) }

/-- The shipments loop: the Shipped/Delivered id list is computed once
before the loop. -/
def genShipments (orders : List Order) (n : Nat) (dr : Nat → ShipmentDraw) :
    Option (List Shipment) :=
  let shippedIds := (orders.filter isShippedOrDelivered).map (fun o => o.order_id)
  generateEach (fun i => genShipment orders shippedIds i (dr i))
    (List.range' 1 n)

/-- The whole generation run of generate_datasets.py: the five loops in
dependency order; a raising loop aborts the run. -/
def generateDatasets (cfg : Config) (o : Oracle) : Option Dataset :=
  let customers := genCustomers cfg.numCustomers o.cust
  let products := genProducts cfg.numProducts o.prod
  match genOrders customers cfg.numOrders o.ord with
  | none => none
  | some orders =>
    match genOrderItems orders products cfg.numOrderItems o.item with
    | none => none
    | some order_items =>
      match genShipments orders cfg.numShipments o.ship with
      | none => none
      | some shipments =>
        some { customers := customers, products := products, orders := orders,
               order_items := order_items, shipments := shipments }

/-! ### Self-verification assertions of the generator -/

/-- set(xs).issubset(set(ys)). -/
def subsetCheck (xs ys : List Nat) : Bool := xs.all (fun x => ys.contains x)

/-- The four referential-integrity assertions the generator runs before
reporting success: true exactly when none of them fires. -/
def verifyGeneration (ds : Dataset) : Bool :=
  subsetCheck (ds.orders.map (fun o => o.customer_id))
      (ds.customers.map (fun c => c.customer_id)) &&
  subsetCheck (ds.order_items.map (fun it => it.product_id))
      (ds.products.map (fun p => p.product_id)) &&
  subsetCheck (ds.order_items.map (fun it => it.order_id))
      (ds.orders.map (fun o => o.order_id)) &&
  subsetCheck (ds.shipments.map (fun s => s.order_id))
      (ds.orders.map (fun o => o.order_id))

/-! ### Loader (load_to_database.py) -/

/-- Accumulator pass of pandas drop_duplicates(subset=[key], keep="first"):
`seen` is the set of key values already kept. -/
def dropDupsAux {α : Type} (key : α → Nat) (seen : List Nat) :
    List α → List α
  | [] => []
  | r :: rs =>
    if seen.contains (key r) then dropDupsAux key seen rs
    else r :: dropDupsAux key (key r :: seen) rs

/-- drop_duplicates(subset=[primary_key_col], keep="first"). -/
def dropDuplicates {α : Type} (key : α → Nat) (rows : List α) : List α :=
  dropDupsAux key [] rows

/-- load_csv_to_table: deduplicate the parsed rows by primary key and
report the number removed; the deduplicated rows are what is inserted into
the (freshly created, empty) table. -/
def load_csv_to_table {α : Type} (key : α → Nat) (rows : List α) :
    List α × Nat :=
  let deduped := dropDuplicates key rows
  (deduped, rows.length - deduped.length)

/-- One orphan count of verify_referential_integrity: the LEFT JOIN /
WHERE parent-key IS NULL pattern counts the child rows whose foreign key
matches no parent row. -/
def countOrphans {α β : Type} (child : List α) (fk : α → Nat)
    (parent : List β) (pk : β → Nat) : Nat :=
  (child.filter (fun r => parent.all (fun p => pk p != fk r))).length

/-- verify_referential_integrity: all four orphan counts must be zero. -/
def verify_referential_integrity (db : Dataset) : Bool :=
  (countOrphans db.orders (fun o => o.customer_id)
      db.customers (fun c => c.customer_id) == 0) &&
  (countOrphans db.order_items (fun it => it.order_id)
      db.orders (fun o => o.order_id) == 0) &&
  (countOrphans db.order_items (fun it => it.product_id)
      db.products (fun p => p.product_id) == 0) &&
  (countOrphans db.shipments (fun s => s.order_id)
      db.orders (fun o => o.order_id) == 0)

/-- The five source CSV files of the loader; `none` is a missing file. -/
structure SourceFiles where
  customersCsv : Option (List Customer)
  productsCsv : Option (List Product)
  ordersCsv : Option (List Order)
  orderItemsCsv : Option (List OrderItem)
  shipmentsCsv : Option (List Shipment)

/-- The missing-file scan of main(), in csv_files insertion order. -/
def missing_files (fs : SourceFiles) : List String :=
  (if fs.customersCsv.isSome then [] else ["customers.csv"]) ++
  (if fs.productsCsv.isSome then [] else ["products.csv"]) ++
  (if fs.ordersCsv.isSome then [] else ["orders.csv"]) ++
  (if fs.orderItemsCsv.isSome then [] else ["order_items.csv"]) ++
  (if fs.shipmentsCsv.isSome then [] else ["shipments.csv"])

/-- Observable outcome of one run of main() in the loader: the resulting
ecommerce.db content (`none` = file absent), the missing files named in the
abort message, and the integrity verdict (`none` = never reached). -/
structure LoadReport where
  store : Option Dataset
  missingReported : List String
  integrityOk : Option Bool
  deriving DecidableEq

/-- main() of load_to_database.py: if any source file is missing, report
and return before touching the store; otherwise remove the old database,
recreate the schema, load the five files in dependency order (deduplicating
each), and verify referential integrity. -/
def load_main (fs : SourceFiles) (store0 : Option Dataset) : LoadReport :=
  let missing := missing_files fs
  if missing.isEmpty then
    match fs.customersCsv, fs.productsCsv, fs.ordersCsv, fs.orderItemsCsv,
        fs.shipmentsCsv with
    | some cs, some ps, some ords, some its, some shs =>
      let db : Dataset :=
        { customers := (load_csv_to_table (fun c => c.customer_id) cs).1
          products := (load_csv_to_table (fun p => p.product_id) ps).1
          orders := (load_csv_to_table (fun o => o.order_id) ords).1
          order_items := (load_csv_to_table (fun it => it.order_item_id) its).1
          shipments := (load_csv_to_table (fun s => s.shipment_id) shs).1 }
      { store := some db, missingReported := [],
        integrityOk := some (verify_referential_integrity db) }
    | _, _, _, _, _ =>
      { store := store0, missingReported := [], integrityOk := none }
  else
    { store := store0, missingReported := missing, integrityOk := none }

/-! ### Spec-side statement of claim C1, for comparison with the code -/

/-- Claim C1 in the words of the spec (the definition to be compared with
`genShipment` from the code): every shipment date is at most END_DATE, is at
least the ship_date of the referenced order when that is set, and otherwise at
least its order_date.  Unlike the code, this wording has no clamp for a
ship_date that already exceeds END_DATE. -/
def claimedShipmentDateOk (ds : Dataset) : Bool :=
  ds.shipments.all fun s =>
    decide (s.shipment_date ≤ END_DATE) &&
    ds.orders.all fun o =>
      o.order_id != s.order_id ||
      (match o.ship_date with
       | some sd => decide (sd ≤ s.shipment_date)
       | none => decide (o.order_date ≤ s.shipment_date))

/-! ### Concrete fixtures for witnesses and counterexamples -/

/-- A fixed oracle: every iteration of every loop uses the same draws; the
orders loop always selects status index 2 (Shipped). -/
def testOracle : Oracle :=
  { cust := fun _ =>
      { firstName := "A", lastName := "B", emailNum := 0, domain := "d",
        signup := 0, country := 0 }
    prod := fun _ =>
      { category := 0, template := 0, company := "Acme", price := 0,
        launch := 0 }
    ord := fun _ => { cust := 0, date := 0, status := 2, shipDays := 0 }
    item := fun _ => { ord := 0, prod := 0, priceFactor := 0, qty := 0 }
    ship := fun _ => { ord := 0, date := 0, carrier := 0, track := 0, cost := 0 } }

/-- A one-row-per-collection configuration (small concrete run). -/
def testConfig : Config :=
  { numCustomers := 1, numProducts := 1, numOrders := 1, numOrderItems := 1,
    numShipments := 1 }

/-- The empty store. -/
def emptyDataset : Dataset :=
  { customers := [], products := [], orders := [], order_items := [],
    shipments := [] }

/-- The dataset produced by the small concrete run (it succeeds, see the
witness theorems). -/
def testDataset : Dataset :=
  (generateDatasets testConfig testOracle).getD emptyDataset

/-- Oracle for the C1 counterexample: the date entropy 1399 of the single order
puts order_date on END_DATE itself, so its ship_date (order_date + 1) lands
past the horizon and triggers the clamp in the shipments loop. -/
def cexOracle : Oracle :=
  { testOracle with
    ord := fun _ => { cust := 0, date := 1399, status := 2, shipDays := 0 } }

/-- Configuration for the C1 counterexample run. -/
def cexConfig : Config :=
  { numCustomers := 1, numProducts := 1, numOrders := 1, numOrderItems := 0,
    numShipments := 1 }

/-- The counterexample dataset. -/
def cexDataset : Dataset :=
  (generateDatasets cexConfig cexOracle).getD emptyDataset

/-- A store whose single order references a nonexistent customer (an orphan
row), for exercising the failure verdict of verify_referential_integrity. -/
def orphanDb : Dataset :=
  { emptyDataset with
    orders := [{ order_id := 1, customer_id := 7, order_date := 0,
                 ship_date := none, status := Status.Pending }] }

/-- Key-value rows with a duplicated primary key, for the loader dedup. -/
def dupRows : List (Nat × Nat) := [(1, 10), (1, 20), (2, 30)]

/-- A source-file set with shipments.csv missing. -/
def missingFs : SourceFiles :=
  { customersCsv := some [], productsCsv := some [], ordersCsv := some [],
    orderItemsCsv := some [], shipmentsCsv := none }

/-- A single Shipped order, for the shipments-loop witness. -/
def shippedOrder : Order :=
  { order_id := 1, customer_id := 1, order_date := START_DATE,
    ship_date := some (START_DATE + 1), status := Status.Shipped }

/-- Fallback order for indexing into concrete datasets. -/
def fallbackOrder : Order :=
  { order_id := 0, customer_id := 0, order_date := 0, ship_date := none,
    status := Status.Pending }

/-- Fallback order item for indexing into concrete datasets. -/
def fallbackItem : OrderItem :=
  { order_item_id := 0, order_id := 0, product_id := 0, quantity := 0,
    item_price := 0 }

/-- Fallback shipment for indexing into concrete datasets. -/
def fallbackShipment : Shipment :=
  { shipment_id := 0, order_id := 0, shipment_date := 0, carrier := "",
    tracking_number := "", shipment_cost := 0 }

/-! ### Lemmas about the draw primitives -/

theorem choice_mem {α : Type} {l : List α} {r : Nat} {x : α}
    (h : choice l r = some x) : x ∈ l :=
  List.getElem?_mem h

theorem choice_isSome {α : Type} {l : List α} (h : l ≠ []) (r : Nat) :
    (choice l r).isSome := by
  unfold choice
  rw [List.getElem?_eq_getElem (Nat.mod_lt _ (List.length_pos.mpr h))]
  rfl

theorem dateBetween_lower (lo hi r : Nat) : lo ≤ dateBetween lo hi r :=
  Nat.le_add_right _ _

theorem dateBetween_upper {lo hi : Nat} (h : lo ≤ hi) (r : Nat) :
    dateBetween lo hi r ≤ hi := by
  unfold dateBetween
  have hm : r % (hi - lo + 1) < hi - lo + 1 := Nat.mod_lt _ (Nat.succ_pos _)
  omega

theorem randint_lower (a b r : Nat) : a ≤ randint a b r :=
  Nat.le_add_right _ _

theorem randint_upper {a b : Nat} (h : a ≤ b) (r : Nat) : randint a b r ≤ b := by
  unfold randint
  have hm : r % (b - a + 1) < b - a + 1 := Nat.mod_lt _ (Nat.succ_pos _)
  omega

theorem uniform_bounds {a b : ℚ} (h : a ≤ b) (t : ℚ) :
    a ≤ uniform a b t ∧ uniform a b t ≤ b := by
  unfold uniform
  have h0 : (0 : ℚ) ≤ min 1 (max 0 t) := le_min (by norm_num) (le_max_left 0 t)
  have h1 : min 1 (max 0 t) ≤ 1 := min_le_left _ _
  constructor
  · nlinarith
  · nlinarith

theorem roundHalfEven_dist (q : ℚ) : |q - (roundHalfEven q : ℚ)| ≤ 1/2 := by
  have h0 : 0 ≤ Int.fract q := Int.fract_nonneg q
  have h1 : Int.fract q < 1 := Int.fract_lt_one q
  have hf : q - (⌊q⌋ : ℚ) = Int.fract q := Int.self_sub_floor q
  unfold roundHalfEven
  split_ifs with h2 h3 h4 <;> rw [abs_le] <;> push_cast <;>
    constructor <;> linarith

theorem round2_bounds (q : ℚ) : q - 1/200 ≤ round2 q ∧ round2 q ≤ q + 1/200 := by
  have h := roundHalfEven_dist (q * 100)
  rw [abs_le] at h
  unfold round2
  constructor <;> [linarith; linarith]

/-! ### Lemmas about the sequential generation loop -/

theorem generateEach_mem {α : Type} {f : Nat → Option α} :
    ∀ {is : List Nat} {ys : List α}, generateEach f is = some ys →
      ∀ y ∈ ys, ∃ i ∈ is, f i = some y := by
  intro is
  induction is with
  | nil =>
    intro ys h y hy
    simp only [generateEach, Option.some.injEq] at h
    subst h
    simp at hy
  | cons i is ih =>
    intro ys h y hy
    simp only [generateEach, Option.bind_eq_some, Option.some.injEq] at h
    obtain ⟨x, hx, xs, hxs, rfl⟩ := h
    rcases List.mem_cons.mp hy with rfl | hmem
    · exact ⟨i, List.mem_cons_self i is, hx⟩
    · obtain ⟨j, hj, hfj⟩ := ih hxs y hmem
      exact ⟨j, List.mem_cons_of_mem _ hj, hfj⟩

theorem generateEach_total {α : Type} {f : Nat → Option α} :
    ∀ {is : List Nat}, (∀ i ∈ is, (f i).isSome) →
      ∃ ys, generateEach f is = some ys := by
  intro is
  induction is with
  | nil => exact fun _ => ⟨[], rfl⟩
  | cons i is ih =>
    intro h
    obtain ⟨x, hx⟩ :=
      Option.isSome_iff_exists.mp (h i (List.mem_cons_self i is))
    obtain ⟨xs, hxs⟩ := ih (fun j hj => h j (List.mem_cons_of_mem _ hj))
    exact ⟨x :: xs, by simp [generateEach, hx, hxs]⟩

/-! ### Inversion lemmas for the loop bodies -/

theorem genOrder_inv {customers : List Customer} {customer_ids : List Nat}
    {i : Nat} {d : OrderDraw} {o : Order}
    (h : genOrder customers customer_ids i d = some o) :
    ∃ cid c, choice customer_ids d.cust = some cid ∧
      customers.find? (fun x => x.customer_id == cid) = some c ∧
      o.order_id = i ∧ o.customer_id = cid ∧
      o.order_date = dateBetween (max c.signup_date START_DATE) END_DATE d.date ∧
      o.status = (choice ORDER_STATUSES d.status).getD Status.Pending ∧
      o.ship_date = (if o.status = Status.Pending ∨ o.status = Status.Cancelled
        then none
        else some (o.order_date + randint 1 7 d.shipDays)) := by
  unfold genOrder at h
  simp only [Option.bind_eq_some, Option.some.injEq] at h
  obtain ⟨cid, h1, c, h2, h3⟩ := h
  subst h3
  exact ⟨cid, c, h1, h2, rfl, rfl, rfl, rfl, rfl⟩

theorem genOrderItem_inv {products : List Product}
    {order_ids product_ids : List Nat} {i : Nat} {d : ItemDraw} {it : OrderItem}
    (h : genOrderItem products order_ids product_ids i d = some it) :
    ∃ oid pid p, choice order_ids d.ord = some oid ∧
      choice product_ids d.prod = some pid ∧
      products.find? (fun x => x.product_id == pid) = some p ∧
      it.order_item_id = i ∧ it.order_id = oid ∧ it.product_id = pid ∧
      it.quantity = randint 1 5 d.qty ∧
      it.item_price = round2 (p.price * uniform (9/10) (11/10) d.priceFactor) := by
  unfold genOrderItem at h
  simp only [Option.bind_eq_some, Option.some.injEq] at h
  obtain ⟨oid, h1, pid, h2, p, h3, h4⟩ := h
  subst h4
  exact ⟨oid, pid, p, h1, h2, h3, rfl, rfl, rfl, rfl, rfl⟩

theorem genShipment_inv {orders : List Order} {shippedIds : List Nat}
    {i : Nat} {d : ShipmentDraw} {s : Shipment}
    (h : genShipment orders shippedIds i d = some s) :
    ∃ oid o, choice shippedIds d.ord = some oid ∧
      orders.find? (fun x => x.order_id == oid) = some o ∧
      s.shipment_id = i ∧ s.order_id = oid ∧
      s.shipment_date =
        dateBetween (shipMinDate o) (max (shipMinDate o) END_DATE) d.date := by
  unfold genShipment at h
  simp only [Option.bind_eq_some, Option.some.injEq] at h
  obtain ⟨oid, h1, o, h2, h3⟩ := h
  subst h3
  exact ⟨oid, o, h1, h2, rfl, rfl, rfl⟩

/-! ### Lemmas about the earliest-shipment-date computation -/

theorem shipMinDate_le_end {o : Order} (h : o.order_date ≤ END_DATE) :
    shipMinDate o ≤ END_DATE := by
  unfold shipMinDate
  dsimp only
  split
  · exact h
  · omega

theorem shipMinDate_of_some_le {o : Order} {sd : Nat} (hsd : o.ship_date = some sd)
    (hle : sd ≤ END_DATE) : shipMinDate o = sd := by
  unfold shipMinDate
  rw [hsd]
  dsimp only
  rw [if_neg (by omega)]

theorem shipMinDate_of_some_gt {o : Order} {sd : Nat} (hsd : o.ship_date = some sd)
    (hgt : END_DATE < sd) : shipMinDate o = o.order_date := by
  unfold shipMinDate
  rw [hsd]
  dsimp only
  rw [if_pos hgt]

theorem shipMinDate_of_none {o : Order} (hsd : o.ship_date = none) :
    shipMinDate o = o.order_date := by
  unfold shipMinDate
  rw [hsd]
  dsimp only
  split <;> rfl

/-! ### Pipeline extraction -/

theorem generateDatasets_inv {cfg : Config} {orc : Oracle} {ds : Dataset}
    (h : generateDatasets cfg orc = some ds) :
    ds.customers = genCustomers cfg.numCustomers orc.cust ∧
    ds.products = genProducts cfg.numProducts orc.prod ∧
    genOrders ds.customers cfg.numOrders orc.ord = some ds.orders ∧
    genOrderItems ds.orders ds.products cfg.numOrderItems orc.item =
      some ds.order_items ∧
    genShipments ds.orders cfg.numShipments orc.ship = some ds.shipments := by
  cases h1 : genOrders (genCustomers cfg.numCustomers orc.cust)
      cfg.numOrders orc.ord with
  | none => simp [generateDatasets, h1] at h
  | some orders =>
    cases h2 : genOrderItems orders (genProducts cfg.numProducts orc.prod)
        cfg.numOrderItems orc.item with
    | none => simp [generateDatasets, h1, h2] at h
    | some items =>
      cases h3 : genShipments orders cfg.numShipments orc.ship with
      | none => simp [generateDatasets, h1, h2, h3] at h
      | some ships =>
        have key : generateDatasets cfg orc =
            some { customers := genCustomers cfg.numCustomers orc.cust,
                   products := genProducts cfg.numProducts orc.prod,
                   orders := orders, order_items := items,
                   shipments := ships } := by
          simp [generateDatasets, h1, h2, h3]
        rw [key] at h
        simp only [Option.some.injEq] at h
        subst h
        exact ⟨rfl, rfl, h1, h2, h3⟩

theorem genCustomers_spec {n : Nat} {dr : Nat → CustomerDraw} :
    ∀ c ∈ genCustomers n dr,
      START_DATE ≤ c.signup_date ∧ c.signup_date ≤ SIGNUP_END := by
  intro c hc
  unfold genCustomers at hc
  obtain ⟨i, _, rfl⟩ := List.mem_map.mp hc
  exact ⟨dateBetween_lower _ _ _, dateBetween_upper (by decide) _⟩

theorem genProducts_spec {n : Nat} {dr : Nat → ProductDraw} :
    ∀ p ∈ genProducts n dr, 5 - 1/200 ≤ p.price ∧ p.price ≤ 5000 + 1/200 := by
  intro p hp
  unfold genProducts at hp
  obtain ⟨i, _, rfl⟩ := List.mem_map.mp hp
  have hu := uniform_bounds (by norm_num : (5 : ℚ) ≤ 5000) (dr i).price
  have hr := round2_bounds (uniform 5 5000 (dr i).price)
  unfold genProduct
  dsimp only
  constructor <;> linarith [hu.1, hu.2, hr.1, hr.2]

theorem generated_order_spec {cfg : Config} {orc : Oracle} {ds : Dataset}
    (h : generateDatasets cfg orc = some ds) {o : Order} (ho : o ∈ ds.orders) :
    (∃ c ∈ ds.customers, c.customer_id = o.customer_id ∧
      max c.signup_date START_DATE ≤ o.order_date ∧
      c.signup_date ≤ o.order_date) ∧
    o.order_date ≤ END_DATE ∧
    (o.ship_date = none ↔ (o.status = Status.Pending ∨ o.status = Status.Cancelled)) ∧
    (¬(o.status = Status.Pending ∨ o.status = Status.Cancelled) →
      ∃ k, 1 ≤ k ∧ k ≤ 7 ∧ o.ship_date = some (o.order_date + k)) ∧
    o.customer_id ∈ ds.customers.map (fun c => c.customer_id) := by
  obtain ⟨hc, _, hord, _, _⟩ := generateDatasets_inv h
  simp only [genOrders] at hord
  obtain ⟨i, _, hgen⟩ := generateEach_mem hord o ho
  obtain ⟨cid, c, h1, h2, _, hcid, hdate, _, hsd⟩ := genOrder_inv hgen
  have hcmem : c ∈ ds.customers := List.mem_of_find?_eq_some h2
  have hcideq : c.customer_id = cid := by
    have := List.find?_some h2
    simpa using this
  have hsignup := genCustomers_spec c (hc ▸ hcmem)
  have hmaxle : max c.signup_date START_DATE ≤ END_DATE := by
    have h1' : SIGNUP_END ≤ END_DATE := by decide
    have h2' : START_DATE ≤ END_DATE := by decide
    omega
  refine ⟨⟨c, hcmem, hcideq.trans hcid.symm, ?_, ?_⟩, ?_, ?_, ?_, ?_⟩
  · rw [hdate]; exact dateBetween_lower _ _ _
  · rw [hdate]
    exact le_trans (le_max_left _ _) (dateBetween_lower _ _ _)
  · rw [hdate]; exact dateBetween_upper hmaxle _
  · rw [hsd]
    by_cases hP : o.status = Status.Pending ∨ o.status = Status.Cancelled <;>
      simp [hP]
  · intro hP
    exact ⟨randint 1 7 (orc.ord i).shipDays,
      randint_lower _ _ _, randint_upper (by omega) _, by rw [hsd, if_neg hP]⟩
  · rw [hcid]
    exact choice_mem h1

theorem generated_shipment_spec {cfg : Config} {orc : Oracle} {ds : Dataset}
    (h : generateDatasets cfg orc = some ds) {s : Shipment}
    (hs : s ∈ ds.shipments) :
    s.order_id ∈ ds.orders.map (fun o => o.order_id) ∧
    (∃ o' ∈ ds.orders, o'.order_id = s.order_id ∧
      (o'.status = Status.Shipped ∨ o'.status = Status.Delivered)) ∧
    ∃ o ∈ ds.orders, o.order_id = s.order_id ∧
      shipMinDate o ≤ s.shipment_date ∧ s.shipment_date ≤ END_DATE := by
  obtain ⟨_, _, _, _, hships⟩ := generateDatasets_inv h
  simp only [genShipments] at hships
  obtain ⟨i, _, hgen⟩ := generateEach_mem hships s hs
  obtain ⟨oid, o, h1, h2, _, hsid, hsdate⟩ := genShipment_inv hgen
  have hoid := choice_mem h1
  obtain ⟨o', ho'mem, ho'id⟩ := List.mem_map.mp hoid
  have ho'filter := List.mem_filter.mp ho'mem
  have ho'status : o'.status = Status.Shipped ∨ o'.status = Status.Delivered := by
    have := ho'filter.2
    simp [isShippedOrDelivered] at this
    exact this
  have homem : o ∈ ds.orders := List.mem_of_find?_eq_some h2
  have hoideq : o.order_id = oid := by
    have := List.find?_some h2
    simpa using this
  have hodate : o.order_date ≤ END_DATE := (generated_order_spec h homem).2.1
  have hminle : shipMinDate o ≤ END_DATE := shipMinDate_le_end hodate
  refine ⟨?_, ⟨o', ho'filter.1, ho'id.trans hsid.symm, ho'status⟩,
    o, homem, hoideq.trans hsid.symm, ?_, ?_⟩
  · rw [hsid]
    exact List.mem_map.mpr ⟨o, homem, hoideq⟩
  · rw [hsdate]
    exact dateBetween_lower _ _ _
  · rw [hsdate]
    have : max (shipMinDate o) END_DATE = END_DATE := max_eq_right hminle
    rw [this]
    exact dateBetween_upper hminle _

theorem generated_item_spec {cfg : Config} {orc : Oracle} {ds : Dataset}
    (h : generateDatasets cfg orc = some ds) {it : OrderItem}
    (hit : it ∈ ds.order_items) :
    it.order_id ∈ ds.orders.map (fun o => o.order_id) ∧
    it.product_id ∈ ds.products.map (fun p => p.product_id) ∧
    (∃ p ∈ ds.products, p.product_id = it.product_id ∧
      ∃ u : ℚ, 9/10 ≤ u ∧ u ≤ 11/10 ∧ it.item_price = round2 (p.price * u)) ∧
    1 ≤ it.quantity ∧ it.quantity ≤ 5 := by
  obtain ⟨_, _, _, hitems, _⟩ := generateDatasets_inv h
  simp only [genOrderItems] at hitems
  obtain ⟨i, _, hgen⟩ := generateEach_mem hitems it hit
  obtain ⟨oid, pid, p, h1, h2, h3, _, hoid, hpid, hqty, hprice⟩ :=
    genOrderItem_inv hgen
  have hpmem : p ∈ ds.products := List.mem_of_find?_eq_some h3
  have hpideq : p.product_id = pid := by
    have := List.find?_some h3
    simpa using this
  have hu := uniform_bounds (by norm_num : (9/10 : ℚ) ≤ 11/10)
    (orc.item i).priceFactor
  refine ⟨hoid ▸ choice_mem h1, hpid ▸ choice_mem h2,
    ⟨p, hpmem, hpideq.trans hpid.symm,
      uniform (9/10) (11/10) (orc.item i).priceFactor, hu.1, hu.2, hprice⟩,
    ?_, ?_⟩
  · rw [hqty]; exact randint_lower _ _ _
  · rw [hqty]; exact randint_upper (by omega) _

/-! ### Lemmas about the deduplication in the loader -/

theorem dropDupsAux_filter_seen {α : Type} (key : α → Nat) :
    ∀ (rows : List α) (seen : List Nat) (k : Nat), k ∈ seen →
      (dropDupsAux key seen rows).filter (fun r => key r == k) = [] := by
  intro rows
  induction rows with
  | nil => intro seen k _; rfl
  | cons r rs ih =>
    intro seen k hk
    cases hc : seen.contains (key r) with
    | true =>
      simp only [dropDupsAux, hc, if_true]
      exact ih seen k hk
    | false =>
      have hmem : key r ∉ seen := by simpa using hc
      have hne : (key r == k) = false := by
        simp only [beq_eq_false_iff_ne, ne_eq]
        exact fun he => hmem (he ▸ hk)
      simp only [dropDupsAux, hc, Bool.false_eq_true, if_false,
        List.filter_cons, hne]
      exact ih (key r :: seen) k (List.mem_cons_of_mem _ hk)

theorem dropDupsAux_filter {α : Type} (key : α → Nat) :
    ∀ (rows : List α) (seen : List Nat) (k : Nat), k ∉ seen →
      (dropDupsAux key seen rows).filter (fun r => key r == k) =
        (rows.filter (fun r => key r == k)).take 1 := by
  intro rows
  induction rows with
  | nil => intro seen k _; rfl
  | cons r rs ih =>
    intro seen k hk
    cases hc : seen.contains (key r) with
    | true =>
      have hmem : key r ∈ seen := by simpa using hc
      have hne : (key r == k) = false := by
        simp only [beq_eq_false_iff_ne, ne_eq]
        exact fun he => hk (he ▸ hmem)
      simp only [dropDupsAux, hc, if_true, List.filter_cons, hne]
      exact ih seen k hk
    | false =>
      by_cases hek : key r = k
      · subst hek
        simp only [dropDupsAux, hc, Bool.false_eq_true, if_false,
          List.filter_cons, beq_self_eq_true, if_true]
        rw [dropDupsAux_filter_seen key rs (key r :: seen) (key r)
          (List.mem_cons_self _ _)]
        simp
      · have hne : (key r == k) = false := by
          simp only [beq_eq_false_iff_ne, ne_eq]
          exact hek
        simp only [dropDupsAux, hc, Bool.false_eq_true, if_false,
          List.filter_cons, hne]
        exact ih (key r :: seen) k (by
          intro hmem
          rcases List.mem_cons.mp hmem with he | hmem'
          · exact hek he.symm
          · exact hk hmem')

theorem dropDupsAux_length_le {α : Type} (key : α → Nat) :
    ∀ (rows : List α) (seen : List Nat),
      (dropDupsAux key seen rows).length ≤ rows.length := by
  intro rows
  induction rows with
  | nil => intro seen; exact Nat.le_refl _
  | cons r rs ih =>
    intro seen
    cases hc : seen.contains (key r) with
    | true =>
      simp only [dropDupsAux, hc, if_true]
      exact Nat.le_succ_of_le (ih seen)
    | false =>
      simp only [dropDupsAux, hc, Bool.false_eq_true, if_false, List.length_cons]
      exact Nat.succ_le_succ (ih (key r :: seen))

theorem dropDupsAux_length_eq {α : Type} (key : α → Nat) :
    ∀ (rows : List α) (seen : List Nat),
      (dropDupsAux key seen rows).length = rows.length →
      (rows.map key).Nodup ∧ ∀ x ∈ rows, key x ∉ seen := by
  intro rows
  induction rows with
  | nil => intro seen _; exact ⟨List.nodup_nil, by simp⟩
  | cons r rs ih =>
    intro seen hlen
    cases hc : seen.contains (key r) with
    | true =>
      exfalso
      rw [dropDupsAux] at hlen
      simp only [hc, if_true] at hlen
      have := dropDupsAux_length_le key rs seen
      simp [hlen] at this
    | false =>
      rw [dropDupsAux] at hlen
      simp only [hc, Bool.false_eq_true, if_false, List.length_cons,
        Nat.succ.injEq] at hlen
      obtain ⟨hnd, hnotin⟩ := ih (key r :: seen) hlen
      have hrnotseen : key r ∉ seen := by simpa using hc
      constructor
      · rw [List.map_cons, List.nodup_cons]
        refine ⟨?_, hnd⟩
        intro hmem
        obtain ⟨x, hx, hkx⟩ := List.mem_map.mp hmem
        exact hnotin x hx (hkx ▸ List.mem_cons_self _ _)
      · intro x hx
        rcases List.mem_cons.mp hx with rfl | hx'
        · exact hrnotseen
        · exact fun hmem => hnotin x hx' (List.mem_cons_of_mem _ hmem)

/-! ### Claim theorems -/

/-- Claim C1, counterexample: the claim as stated is false on the code.  At
this concrete configuration and oracle the run succeeds and produces an
order with order_date = END_DATE, status Shipped and ship_date =
END_DATE + 1 day; the shipments loop then clamps the earliest shipment date
back to the order_date, so the emitted shipment has
shipment_date = END_DATE < ship_date, violating the claimed
`shipment_date ≥ ship_date when set`. -/
theorem shipment_date_claim_counterexample :
    (generateDatasets cexConfig cexOracle).map claimedShipmentDateOk =
      some false := by decide

/-- Claim C1, amended: for every generated Shipment, shipment_date never
exceeds END_DATE, and shipment_date is at least the ship_date of the
referenced Order when that ship_date is set and does not itself exceed END_DATE;
when the ship_date is set but exceeds END_DATE (the clamped case), and when
it is absent, shipment_date is at least the order_date of the Order instead. -/
theorem shipment_date_bounds_amended (cfg : Config) (orc : Oracle)
    (ds : Dataset) (h : generateDatasets cfg orc = some ds) (s : Shipment)
    (hs : s ∈ ds.shipments) :
    s.shipment_date ≤ END_DATE ∧
    ∃ o ∈ ds.orders, o.order_id = s.order_id ∧
      (∀ sd, o.ship_date = some sd → sd ≤ END_DATE → sd ≤ s.shipment_date) ∧
      (∀ sd, o.ship_date = some sd → END_DATE < sd →
        o.order_date ≤ s.shipment_date) ∧
      (o.ship_date = none → o.order_date ≤ s.shipment_date) := by
  obtain ⟨_, _, o, ho, hid, hmin, hend⟩ := generated_shipment_spec h hs
  refine ⟨hend, o, ho, hid, ?_, ?_, ?_⟩
  · intro sd hsd hle
    rw [← shipMinDate_of_some_le hsd hle]
    exact hmin
  · intro sd hsd hgt
    rw [← shipMinDate_of_some_gt hsd hgt]
    exact hmin
  · intro hnone
    rw [← shipMinDate_of_none hnone]
    exact hmin

/-- Witness for the amended claim C1 at a concrete successful run. -/
theorem shipment_date_bounds_amended_witness :
    (testDataset.shipments.getD 0 fallbackShipment).shipment_date ≤ END_DATE ∧
    ∃ o ∈ testDataset.orders,
      o.order_id = (testDataset.shipments.getD 0 fallbackShipment).order_id ∧
      (∀ sd, o.ship_date = some sd → sd ≤ END_DATE →
        sd ≤ (testDataset.shipments.getD 0 fallbackShipment).shipment_date) ∧
      (∀ sd, o.ship_date = some sd → END_DATE < sd →
        o.order_date ≤ (testDataset.shipments.getD 0 fallbackShipment).shipment_date) ∧
      (o.ship_date = none →
        o.order_date ≤ (testDataset.shipments.getD 0 fallbackShipment).shipment_date) :=
  shipment_date_bounds_amended testConfig testOracle testDataset (by rfl)
    (testDataset.shipments.getD 0 fallbackShipment)
    (List.getElem?_mem (show testDataset.shipments[0]? =
      some (testDataset.shipments.getD 0 fallbackShipment) from rfl))

/-- Claim C2: every generated foreign key is a member of the parent
id set of the parent collection, so the four self-verification assertions
all pass on any successful generation run. -/
theorem generation_referential_integrity (cfg : Config) (orc : Oracle)
    (ds : Dataset) (h : generateDatasets cfg orc = some ds) :
    verifyGeneration ds = true := by
  unfold verifyGeneration subsetCheck
  simp only [Bool.and_eq_true, List.all_eq_true]
  refine ⟨⟨⟨?_, ?_⟩, ?_⟩, ?_⟩ <;> intro x hx
  · obtain ⟨o, ho, rfl⟩ := List.mem_map.mp hx
    exact List.elem_iff.mpr ((generated_order_spec h ho).2.2.2.2)
  · obtain ⟨it, hit, rfl⟩ := List.mem_map.mp hx
    exact List.elem_iff.mpr ((generated_item_spec h hit).2.1)
  · obtain ⟨it, hit, rfl⟩ := List.mem_map.mp hx
    exact List.elem_iff.mpr ((generated_item_spec h hit).1)
  · obtain ⟨s, hs, rfl⟩ := List.mem_map.mp hx
    exact List.elem_iff.mpr ((generated_shipment_spec h hs).1)

/-- Witness for claim C2 at a concrete successful run. -/
theorem generation_referential_integrity_witness :
    verifyGeneration testDataset = true :=
  generation_referential_integrity testConfig testOracle testDataset (by rfl)

/-- Claim C3: the ship_date of a generated Order is absent exactly when its
status is Pending or Cancelled; for every other status it is order_date
plus an integer number of days between 1 and 7 inclusive. -/
theorem order_ship_date_spec (cfg : Config) (orc : Oracle) (ds : Dataset)
    (h : generateDatasets cfg orc = some ds) (o : Order) (ho : o ∈ ds.orders) :
    (o.ship_date = none ↔
      (o.status = Status.Pending ∨ o.status = Status.Cancelled)) ∧
    (¬(o.status = Status.Pending ∨ o.status = Status.Cancelled) →
      ∃ k, 1 ≤ k ∧ k ≤ 7 ∧ o.ship_date = some (o.order_date + k)) := by
  obtain ⟨_, _, hiff, hk, _⟩ := generated_order_spec h ho
  exact ⟨hiff, hk⟩

/-- Witness for claim C3 at a concrete successful run. -/
theorem order_ship_date_spec_witness :
    ((testDataset.orders.getD 0 fallbackOrder).ship_date = none ↔
      ((testDataset.orders.getD 0 fallbackOrder).status = Status.Pending ∨
       (testDataset.orders.getD 0 fallbackOrder).status = Status.Cancelled)) ∧
    (¬((testDataset.orders.getD 0 fallbackOrder).status = Status.Pending ∨
       (testDataset.orders.getD 0 fallbackOrder).status = Status.Cancelled) →
      ∃ k, 1 ≤ k ∧ k ≤ 7 ∧
        (testDataset.orders.getD 0 fallbackOrder).ship_date =
          some ((testDataset.orders.getD 0 fallbackOrder).order_date + k)) :=
  order_ship_date_spec testConfig testOracle testDataset (by rfl)
    (testDataset.orders.getD 0 fallbackOrder) (by decide)

/-- Claim C7: the order_date of a generated Order is drawn from the interval
[max(signup_date of the referenced customer, START_DATE), END_DATE], so it is at
least the signup_date of the referenced Customer. -/
theorem order_date_after_signup (cfg : Config) (orc : Oracle) (ds : Dataset)
    (h : generateDatasets cfg orc = some ds) (o : Order) (ho : o ∈ ds.orders) :
    ∃ c ∈ ds.customers, c.customer_id = o.customer_id ∧
      max c.signup_date START_DATE ≤ o.order_date ∧
      o.order_date ≤ END_DATE ∧ c.signup_date ≤ o.order_date := by
  obtain ⟨⟨c, hc, hid, hmax, hsign⟩, hend, _, _, _⟩ := generated_order_spec h ho
  exact ⟨c, hc, hid, hmax, hend, hsign⟩

/-- Witness for claim C7 at a concrete successful run. -/
theorem order_date_after_signup_witness :
    ∃ c ∈ testDataset.customers,
      c.customer_id = (testDataset.orders.getD 0 fallbackOrder).customer_id ∧
      max c.signup_date START_DATE ≤
        (testDataset.orders.getD 0 fallbackOrder).order_date ∧
      (testDataset.orders.getD 0 fallbackOrder).order_date ≤ END_DATE ∧
      c.signup_date ≤ (testDataset.orders.getD 0 fallbackOrder).order_date :=
  order_date_after_signup testConfig testOracle testDataset (by rfl)
    (testDataset.orders.getD 0 fallbackOrder) (by decide)

/-- Claim C8: generation is a pure function of the seeded randomness (the
`random` stream and the Faker stream together form the oracle), so two runs
whose seeded draw streams coincide produce identical collections record for
record, and hence identical interchange files. -/
theorem generation_deterministic (cfg : Config) (o1 o2 : Oracle)
    (h : o1 = o2) : generateDatasets cfg o1 = generateDatasets cfg o2 := by
  rw [h]

/-- Witness for claim C8 at a concrete oracle. -/
theorem generation_deterministic_witness :
    generateDatasets testConfig testOracle =
      generateDatasets testConfig testOracle :=
  generation_deterministic testConfig testOracle testOracle rfl

/-- Claim C9: the item_price of a generated OrderItem is the price of the
referenced Product times a factor in [0.9, 1.1], rounded to 2 decimals, hence
lies between 0.9 x price and 1.1 x price up to half a cent, and its
quantity is between 1 and 5 inclusive. -/
theorem item_price_bounds (cfg : Config) (orc : Oracle) (ds : Dataset)
    (h : generateDatasets cfg orc = some ds) (it : OrderItem)
    (hit : it ∈ ds.order_items) :
    ∃ p ∈ ds.products, p.product_id = it.product_id ∧
      (∃ u : ℚ, 9/10 ≤ u ∧ u ≤ 11/10 ∧ it.item_price = round2 (p.price * u)) ∧
      (9/10) * p.price - 1/200 ≤ it.item_price ∧
      it.item_price ≤ (11/10) * p.price + 1/200 ∧
      1 ≤ it.quantity ∧ it.quantity ≤ 5 := by
  obtain ⟨_, _, ⟨p, hp, hpid, u, hu1, hu2, hprice⟩, hq1, hq2⟩ :=
    generated_item_spec h hit
  obtain ⟨_, hpd, _, _, _⟩ := generateDatasets_inv h
  have hppos : 0 ≤ p.price := by
    have := (genProducts_spec p (hpd ▸ hp)).1
    linarith
  have hr := round2_bounds (p.price * u)
  have hlo : (9/10) * p.price ≤ p.price * u := by nlinarith
  have hhi : p.price * u ≤ (11/10) * p.price := by nlinarith
  exact ⟨p, hp, hpid, ⟨u, hu1, hu2, hprice⟩,
    by rw [hprice]; linarith, by rw [hprice]; linarith, hq1, hq2⟩

/-- Witness for claim C9 at a concrete successful run. -/
theorem item_price_bounds_witness :
    ∃ p ∈ testDataset.products,
      p.product_id = (testDataset.order_items.getD 0 fallbackItem).product_id ∧
      (∃ u : ℚ, 9/10 ≤ u ∧ u ≤ 11/10 ∧
        (testDataset.order_items.getD 0 fallbackItem).item_price =
          round2 (p.price * u)) ∧
      (9/10) * p.price - 1/200 ≤
        (testDataset.order_items.getD 0 fallbackItem).item_price ∧
      (testDataset.order_items.getD 0 fallbackItem).item_price ≤
        (11/10) * p.price + 1/200 ∧
      1 ≤ (testDataset.order_items.getD 0 fallbackItem).quantity ∧
      (testDataset.order_items.getD 0 fallbackItem).quantity ≤ 5 :=
  item_price_bounds testConfig testOracle testDataset (by rfl)
    (testDataset.order_items.getD 0 fallbackItem)
    (List.getElem?_mem (show testDataset.order_items[0]? =
      some (testDataset.order_items.getD 0 fallbackItem) from rfl))

/-- Claim C10: with at least one shipment requested, shipment generation
succeeds exactly when some order has status Shipped or Delivered — the
unguarded choice over the empty candidate list fails and no shipments are
produced otherwise — and every generated shipment references an order whose
status is Shipped or Delivered. -/
theorem shipments_require_shipped_order (orders : List Order) (n : Nat)
    (dr : Nat → ShipmentDraw) (hn : 1 ≤ n) :
    (orders.filter isShippedOrDelivered = [] →
      genShipments orders n dr = none) ∧
    (orders.filter isShippedOrDelivered ≠ [] →
      (genShipments orders n dr).isSome = true) ∧
    (∀ l, genShipments orders n dr = some l → ∀ s ∈ l,
      ∃ o ∈ orders, o.order_id = s.order_id ∧
        (o.status = Status.Shipped ∨ o.status = Status.Delivered)) := by
  refine ⟨?_, ?_, ?_⟩
  · intro hempty
    obtain ⟨m, rfl⟩ : ∃ m, n = m + 1 := ⟨n - 1, by omega⟩
    simp only [genShipments, hempty, List.map_nil, List.range'_succ]
    simp [generateEach, genShipment, choice]
  · intro hne
    have hids : (orders.filter isShippedOrDelivered).map (fun o => o.order_id)
        ≠ [] := by simpa using hne
    have hall : ∀ i ∈ List.range' 1 n,
        ((fun j => genShipment orders
          ((orders.filter isShippedOrDelivered).map (fun o => o.order_id))
          j (dr j)) i).isSome := by
      intro i _
      obtain ⟨oid, hoid⟩ :=
        Option.isSome_iff_exists.mp (choice_isSome hids (dr i).ord)
      have hex : ∃ x, x ∈ orders ∧ (x.order_id == oid) = true := by
        obtain ⟨o', ho', hid⟩ := List.mem_map.mp (choice_mem hoid)
        exact ⟨o', (List.mem_filter.mp ho').1, by simp [hid]⟩
      obtain ⟨o, hfind⟩ :=
        Option.isSome_iff_exists.mp (List.find?_isSome.mpr hex)
      simp [genShipment, hoid, hfind]
    obtain ⟨ys, hys⟩ := generateEach_total hall
    simp only [genShipments, hys, Option.isSome_some]
  · intro l hl s hs
    simp only [genShipments] at hl
    obtain ⟨i, _, hgen⟩ := generateEach_mem hl s hs
    obtain ⟨oid, o, h1, h2, _, hsid, _⟩ := genShipment_inv hgen
    obtain ⟨o', ho', hid⟩ := List.mem_map.mp (choice_mem h1)
    have hf := List.mem_filter.mp ho'
    refine ⟨o', hf.1, hid.trans hsid.symm, ?_⟩
    have hstat := hf.2
    simp [isShippedOrDelivered] at hstat
    exact hstat

/-- Witness for claim C10 at a concrete one-order run. -/
theorem shipments_require_shipped_order_witness :
    ([shippedOrder].filter isShippedOrDelivered = [] →
      genShipments [shippedOrder] 1 testOracle.ship = none) ∧
    ([shippedOrder].filter isShippedOrDelivered ≠ [] →
      (genShipments [shippedOrder] 1 testOracle.ship).isSome = true) ∧
    (∀ l, genShipments [shippedOrder] 1 testOracle.ship = some l → ∀ s ∈ l,
      ∃ o ∈ [shippedOrder], o.order_id = s.order_id ∧
        (o.status = Status.Shipped ∨ o.status = Status.Delivered)) :=
  shipments_require_shipped_order [shippedOrder] 1 testOracle.ship (by decide)

/-- Claim C4: loading a source with repeated primary-key values stores
exactly one row per key (the first occurrence in file order survives, being
the one-element take of the filtered rows), and the reported
duplicates-removed count is the number of dropped rows, which is non-zero
whenever a duplicate key was present. -/
theorem load_dedup_spec {α : Type} (key : α → Nat) (rows : List α) (k : Nat)
    (hk : k ∈ rows.map key) (hdup : ¬(rows.map key).Nodup) :
    (load_csv_to_table key rows).1.filter (fun r => key r == k) =
      (rows.filter (fun r => key r == k)).take 1 ∧
    ((load_csv_to_table key rows).1.filter (fun r => key r == k)).length = 1 ∧
    (load_csv_to_table key rows).2 =
      rows.length - (load_csv_to_table key rows).1.length ∧
    0 < (load_csv_to_table key rows).2 := by
  have hfil : (load_csv_to_table key rows).1.filter (fun r => key r == k) =
      (rows.filter (fun r => key r == k)).take 1 :=
    dropDupsAux_filter key rows [] k (by simp)
  have hne : rows.filter (fun r => key r == k) ≠ [] := by
    obtain ⟨r, hr, rfl⟩ := List.mem_map.mp hk
    intro hcon
    have hmem : r ∈ rows.filter (fun r' => key r' == key r) :=
      List.mem_filter.mpr ⟨hr, by simp⟩
    rw [hcon] at hmem
    simp at hmem
  have hlen1 : ((rows.filter (fun r => key r == k)).take 1).length = 1 := by
    rw [List.length_take]
    have := List.length_pos.mpr hne
    omega
  have hlt : (dropDuplicates key rows).length < rows.length := by
    rcases Nat.lt_or_ge (dropDuplicates key rows).length rows.length with hl | hl
    · exact hl
    · exfalso
      have hle := dropDupsAux_length_le key rows ([] : List Nat)
      have heq : (dropDupsAux key [] rows).length = rows.length :=
        Nat.le_antisymm hle hl
      exact hdup (dropDupsAux_length_eq key rows [] heq).1
  refine ⟨hfil, by rw [hfil]; exact hlen1, rfl, ?_⟩
  show 0 < rows.length - (dropDuplicates key rows).length
  omega

/-- Witness for claim C4 on a concrete duplicated source. -/
theorem load_dedup_spec_witness :
    (load_csv_to_table Prod.fst dupRows).1.filter (fun r => Prod.fst r == 1) =
      (dupRows.filter (fun r => Prod.fst r == 1)).take 1 ∧
    ((load_csv_to_table Prod.fst dupRows).1.filter
      (fun r => Prod.fst r == 1)).length = 1 ∧
    (load_csv_to_table Prod.fst dupRows).2 =
      dupRows.length - (load_csv_to_table Prod.fst dupRows).1.length ∧
    0 < (load_csv_to_table Prod.fst dupRows).2 :=
  load_dedup_spec Prod.fst dupRows 1 (by decide) (by decide)

/-- Claim C5: if any of the five source files is missing, main() of
the loader names the missing files and returns before any write: the prior
store state (database file and all tables) is left unchanged and the
integrity verification is never reached. -/
theorem load_missing_file_aborts (fs : SourceFiles) (store0 : Option Dataset)
    (h : missing_files fs ≠ []) :
    (load_main fs store0).store = store0 ∧
    (load_main fs store0).missingReported = missing_files fs ∧
    (load_main fs store0).integrityOk = none := by
  have hne : (missing_files fs).isEmpty = false := by
    cases hmf : missing_files fs with
    | nil => exact absurd hmf h
    | cons a l => rfl
  unfold load_main
  simp [hne]

/-- Witness for claim C5 with shipments.csv missing. -/
theorem load_missing_file_aborts_witness :
    (load_main missingFs (some emptyDataset)).store = some emptyDataset ∧
    (load_main missingFs (some emptyDataset)).missingReported =
      missing_files missingFs ∧
    (load_main missingFs (some emptyDataset)).integrityOk = none :=
  load_missing_file_aborts missingFs (some emptyDataset) (by decide)

/-- Claim C6: verify_referential_integrity returns true iff all four
orphan counts (Order to Customer, OrderItem to Order, OrderItem to Product,
Shipment to Order) are zero, and returns false whenever any relationship
has at least one orphan row. -/
theorem verify_integrity_iff (db : Dataset) :
    (verify_referential_integrity db = true ↔
      (countOrphans db.orders (fun o => o.customer_id)
          db.customers (fun c => c.customer_id) = 0 ∧
       countOrphans db.order_items (fun it => it.order_id)
          db.orders (fun o => o.order_id) = 0 ∧
       countOrphans db.order_items (fun it => it.product_id)
          db.products (fun p => p.product_id) = 0 ∧
       countOrphans db.shipments (fun s => s.order_id)
          db.orders (fun o => o.order_id) = 0)) ∧
    ((0 < countOrphans db.orders (fun o => o.customer_id)
          db.customers (fun c => c.customer_id) ∨
      0 < countOrphans db.order_items (fun it => it.order_id)
          db.orders (fun o => o.order_id) ∨
      0 < countOrphans db.order_items (fun it => it.product_id)
          db.products (fun p => p.product_id) ∨
      0 < countOrphans db.shipments (fun s => s.order_id)
          db.orders (fun o => o.order_id)) →
      verify_referential_integrity db = false) := by
  have hiff : verify_referential_integrity db = true ↔
      (countOrphans db.orders (fun o => o.customer_id)
          db.customers (fun c => c.customer_id) = 0 ∧
       countOrphans db.order_items (fun it => it.order_id)
          db.orders (fun o => o.order_id) = 0 ∧
       countOrphans db.order_items (fun it => it.product_id)
          db.products (fun p => p.product_id) = 0 ∧
       countOrphans db.shipments (fun s => s.order_id)
          db.orders (fun o => o.order_id) = 0) := by
    unfold verify_referential_integrity
    simp only [Bool.and_eq_true, beq_iff_eq]
    tauto
  refine ⟨hiff, ?_⟩
  intro horph
  cases hv : verify_referential_integrity db with
  | false => rfl
  | true =>
    exfalso
    obtain ⟨h1, h2, h3, h4⟩ := hiff.mp hv
    omega

/-- Witness for claim C6 on a concrete store with an orphan order row. -/
theorem verify_integrity_iff_witness :
    verify_referential_integrity orphanDb = false :=
  (verify_integrity_iff orphanDb).2 (Or.inl (by decide))

end Ecom
